import Mathlib

/-!
Verification development for the Spotify playlist downloader core
(`src/main.py`).  The Python functions relevant to the frozen claims are
embedded shallowly:

* `pySplitColon`, `pyStrip`, `pyIntParseChars` model `str.split(":")`,
  whitespace stripping, and Python's `int()` literal parsing (optional
  sign, decimal digits with single underscores between digits).
* `convert_to_milliseconds` embeds `PlaylistDownloader._convert_to_milliseconds`.
* `Json` models the semi-structured response trees; `Json.getKey` is
  dictionary access (raising `KeyError` becomes `none`), `Json.getIdx`
  is Python list indexing with negative-index support (raising
  `IndexError` becomes `none`).
* `get_song_url` embeds `PlaylistDownloader.get_song_url`: the
  disambiguation-block check at line 103 sits outside the `try` block,
  so lookup failures there are modelled as the unwrapped
  `SongUrlErr.keyOrIndexError`; lookup failures inside the `try` block
  are caught by `except (KeyError, IndexError)` and re-raised as
  `ValueError(f"Failed to find matching song for {title} by {artist}")`,
  modelled as `SongUrlErr.matchValueError title artist`; a `ValueError`
  raised by `int()` inside `_convert_to_milliseconds` is not caught by
  that clause and escapes, modelled as `SongUrlErr.formatValueError`.
* `get_song_urls` embeds `PlaylistDownloader.get_song_urls`; the search
  call is passed in as a function from the song to the response
  document, and the second component of the result counts the
  `sleep(uniform(1, 3))` calls (the random duration itself is not
  modelled, only the occurrence of the sleep).
* `extractSongItems` / `get_playlist_info` embed the item loop of
  `PlaylistDownloader.get_playlist_info`; an exception while reading an
  item is modelled as `none` for the whole call.

Type confusion that Python would report as `TypeError`/`AttributeError`
(e.g. indexing into a number, or calling `.split` on a non-string
duration value) is modelled coarsely: failed lookups on non-containers
are `none`, and a non-string duration value is `SongUrlErr.attrValueErr`.
No claim below exercises those branches.
-/

namespace SpotifyDL

/-- Semi-structured values as returned by the upstream JSON APIs. -/
inductive Json where
  | str (s : String)
  | num (n : Int)
  | obj (fields : List (String × Json))
  | arr (elems : List Json)

/-- Python dictionary lookup `j[k]`: `none` models a raised `KeyError`. -/
def Json.getKey : Json → String → Option Json
  | .obj fields, k => (fields.find? (fun p => p.1 == k)).map Prod.snd
  | _, _ => none

/-- Python list indexing `j[i]` with negative-index support:
`none` models a raised `IndexError` (or a lookup on a non-list). -/
def Json.getIdx : Json → Int → Option Json
  | .arr elems, i =>
      let j : Int := if i < 0 then i + elems.length else i
      if j < 0 then none else elems.get? j.toNat
  | _, _ => none

/-- Python `key in j`: key membership for dictionaries, element
membership for lists, substring test for strings. -/
def Json.hasKey : Json → String → Bool
  | .obj fields, k => fields.any (fun p => p.1 == k)
  | .arr elems, k => elems.any (fun j => match j with | .str s => s == k | _ => false)
  | .str s, k => decide (k.data <:+: s.data)
  | .num _, _ => false

/-- Rendering of a value inside an f-string.  Containers would render as
their Python repr; the placeholders are never reached in the claims
below, which only interpolate strings and numbers. -/
def Json.pyStr : Json → String
  | .str s => s
  | .num n => toString n
  | .obj _ => "object"
  | .arr _ => "list"

/-- One step of a chained subscript expression in the Python source. -/
inductive Step where
  | key (k : String)
  | idx (i : Int)

/-- A chain of subscripts `j[s1][s2]...`: `none` models the first raised
`KeyError`/`IndexError` in the chain. -/
def Json.getPath : Json → List Step → Option Json
  | j, [] => some j
  | j, .key k :: rest =>
      match j.getKey k with
      | some v => v.getPath rest
      | none => none
  | j, .idx i :: rest =>
      match j.getIdx i with
      | some v => v.getPath rest
      | none => none

/-- `str.split(":")` on the character list of the string. -/
def pySplitColon : List Char → List (List Char)
  | [] => [[]]
  | c :: rest =>
      if c == ':' then [] :: pySplitColon rest
      else
        match pySplitColon rest with
        | [] => [[c]]
        | h :: t => (c :: h) :: t

/-- Whitespace stripping performed by Python's `int()` before parsing. -/
def pyStrip (cs : List Char) : List Char :=
  ((cs.dropWhile Char.isWhitespace).reverse.dropWhile Char.isWhitespace).reverse

/-- Validity of the digit part of a Python integer literal, scanned with
the previous character at hand: an underscore is only legal directly
after a digit, and the final character must be a digit. -/
def pyDigitsOkAux : Char → List Char → Bool
  | prev, [] => prev.isDigit
  | prev, c :: cs => (if c == '_' then prev.isDigit else c.isDigit) && pyDigitsOkAux c cs

/-- Validity of the digit part of a Python integer literal: nonempty,
leading digit, underscores only between digits. -/
def pyDigitsOk : List Char → Bool
  | [] => false
  | c :: cs => c.isDigit && pyDigitsOkAux c cs

/-- Numeric value of a digit sequence, ignoring grouping underscores. -/
def digitsVal (cs : List Char) : Nat :=
  (cs.filter (fun c => c != '_')).foldl (fun acc c => acc * 10 + (c.toNat - '0'.toNat)) 0

/-- Python `int(s)` on a string: strip whitespace, optional sign, then a
valid digit sequence; `none` models a raised `ValueError`. -/
def pyIntParseChars (cs : List Char) : Option Int :=
  match pyStrip cs with
  | '+' :: rest => if pyDigitsOk rest then some (Int.ofNat (digitsVal rest)) else none
  | '-' :: rest => if pyDigitsOk rest then some (-(Int.ofNat (digitsVal rest))) else none
  | stripped => if pyDigitsOk stripped then some (Int.ofNat (digitsVal stripped)) else none

/-- The `ValueError` raised out of `_convert_to_milliseconds`, either by
tuple unpacking (number of `:`-separated parts not two) or by `int()`. -/
inductive FormatErr where
  | valueError
deriving DecidableEq, Repr

/-- Embeds `PlaylistDownloader._convert_to_milliseconds` (src/main.py
lines 73-85): `minutes, seconds = text.split(":")` followed by
`(int(minutes) * 60 + int(seconds)) * 1000`. -/
def convert_to_milliseconds (text : String) : Except FormatErr Int :=
  match pySplitColon text.data with
  | [m, s] =>
      match pyIntParseChars m, pyIntParseChars s with
      | some mi, some si => Except.ok ((mi * 60 + si) * 1000)
      | _, _ => Except.error FormatErr.valueError
  | _ => Except.error FormatErr.valueError

/-- Embeds the `SongInfo` pydantic model (title, primary artist, length
in milliseconds). -/
structure SongInfo where
  title : String
  artist : String
  length : Int
deriving DecidableEq, Repr

/-- The ways `get_song_url` can raise, distinguished by how the Python
exception leaves the function. -/
inductive SongUrlErr where
  /-- A `KeyError`/`IndexError` raised outside the `try` block (the
  disambiguation-detection subscripts on line 103), escaping unwrapped. -/
  | keyOrIndexError
  /-- A `ValueError` raised by `int()` inside `_convert_to_milliseconds`,
  not caught by `except (KeyError, IndexError)`, escaping unwrapped. -/
  | formatValueError
  /-- An `AttributeError` from calling `.split` on a non-string duration
  value, escaping unwrapped (unreachable in the claims below). -/
  | attrValueErr
  /-- The `ValueError(f"Failed to find matching song for {title} by
  {artist}")` raised by the `except (KeyError, IndexError)` handler. -/
  | matchValueError (title artist : String)
deriving DecidableEq, Repr

/-- The URL template `https://music.youtube.com/watch?v={video_id}`. -/
def watchUrl (videoId : String) : String :=
  "https://music.youtube.com/watch?v=" ++ videoId

/-- The subscript chain from the response root down to the section list
`data["contents"]["tabbedSearchResultsRenderer"]["tabs"][0]["tabRenderer"]["content"]["sectionListRenderer"]["contents"]`. -/
def sectionsSteps : List Step :=
  [.key "contents", .key "tabbedSearchResultsRenderer", .key "tabs", .idx 0,
   .key "tabRenderer", .key "content", .key "sectionListRenderer", .key "contents"]

/-- Path of the top ("card") result's duration text relative to the
section list (src/main.py line 109). -/
def cardDurSteps : List Step :=
  [.idx 0, .key "musicCardShelfRenderer", .key "subtitle", .key "runs", .idx (-1), .key "text"]

/-- Path of the first list result's duration text relative to the
section list (src/main.py line 113). -/
def listDurSteps : List Step :=
  [.idx 1, .key "musicShelfRenderer", .key "contents", .idx 0,
   .key "musicResponsiveListItemRenderer", .key "flexColumns", .idx 1,
   .key "musicResponsiveListItemFlexColumnRenderer", .key "text", .key "runs",
   .idx (-1), .key "text"]

/-- Path of the card result's video id relative to the section list
(src/main.py line 119). -/
def cardIdSteps : List Step :=
  [.idx 0, .key "musicCardShelfRenderer", .key "title", .key "runs", .idx 0,
   .key "navigationEndpoint", .key "watchEndpoint", .key "videoId"]

/-- Path of the card result's display title relative to the section list
(src/main.py line 120). -/
def cardTitleSteps : List Step :=
  [.idx 0, .key "musicCardShelfRenderer", .key "title", .key "runs", .idx 0, .key "text"]

/-- Path of the first list result's video id relative to the section
list (src/main.py line 123). -/
def listIdSteps : List Step :=
  [.idx 1, .key "musicShelfRenderer", .key "contents", .idx 0,
   .key "musicResponsiveListItemRenderer", .key "overlay",
   .key "musicItemThumbnailOverlayRenderer", .key "content",
   .key "musicPlayButtonRenderer", .key "playNavigationEndpoint",
   .key "watchEndpoint", .key "videoId"]

/-- Path of the first list result's display title relative to the
section list (src/main.py line 124). -/
def listTitleSteps : List Step :=
  [.idx 1, .key "musicShelfRenderer", .key "contents", .idx 0,
   .key "musicResponsiveListItemRenderer", .key "flexColumns", .idx 0,
   .key "musicResponsiveListItemFlexColumnRenderer", .key "text", .key "runs",
   .idx 0, .key "text"]

/-- Embeds the `try` block of `get_song_url` (src/main.py lines 107-127)
over the (possibly disambiguation-stripped) section list: extract both
durations, compare the absolute deltas against the target length, and
read the selected candidate's video id and display title.  Failed
subscripts map to `matchValueError` (the `except (KeyError, IndexError)`
handler); a failed `int()` maps to `formatValueError`, which that
handler does not catch. -/
def selectFromSections (song : SongInfo) (sections : Json) : Except SongUrlErr (String × Json) :=
  match sections.getPath cardDurSteps with
  | none => Except.error (SongUrlErr.matchValueError song.title song.artist)
  | some tj =>
      match tj with
      | .str ttext =>
          match convert_to_milliseconds ttext with
          | .error _ => Except.error SongUrlErr.formatValueError
          | .ok tms =>
              match sections.getPath listDurSteps with
              | none => Except.error (SongUrlErr.matchValueError song.title song.artist)
              | some fj =>
                  match fj with
                  | .str ftext =>
                      match convert_to_milliseconds ftext with
                      | .error _ => Except.error SongUrlErr.formatValueError
                      | .ok fms =>
                          if (tms - song.length).natAbs < (fms - song.length).natAbs then
                            match sections.getPath cardIdSteps, sections.getPath cardTitleSteps with
                            | some vid, some vtitle => Except.ok (watchUrl vid.pyStr, vtitle)
                            | _, _ => Except.error (SongUrlErr.matchValueError song.title song.artist)
                          else
                            match sections.getPath listIdSteps, sections.getPath listTitleSteps with
                            | some vid, some vtitle => Except.ok (watchUrl vid.pyStr, vtitle)
                            | _, _ => Except.error (SongUrlErr.matchValueError song.title song.artist)
                  | _ => Except.error SongUrlErr.attrValueErr
      | _ => Except.error SongUrlErr.attrValueErr

/-- Embeds `PlaylistDownloader.get_song_url` (src/main.py lines 87-131)
applied to the search response `data` for this song's query.  Line 103
first reads `...["contents"][0]` outside the `try` block (failures there
escape unwrapped), checks it for the `"itemSectionRenderer"` marker key,
and deletes it when present; extraction then proceeds on the remaining
section list. -/
def get_song_url (song : SongInfo) (data : Json) : Except SongUrlErr (String × Json) :=
  match data.getPath sectionsSteps with
  | none => Except.error SongUrlErr.keyOrIndexError
  | some contentsJ =>
      match contentsJ with
      | .arr sections =>
          match sections with
          | [] => Except.error SongUrlErr.keyOrIndexError
          | sec0 :: rest =>
              selectFromSections song
                (.arr (if sec0.hasKey "itemSectionRenderer" then rest else sec0 :: rest))
      | _ => Except.error SongUrlErr.keyOrIndexError

/-- Embeds `PlaylistDownloader.get_song_urls` (src/main.py lines
133-156).  `search` stands for `self.client.search` on the song's
query.  The first component is the accumulated URL list; the second
counts the executed `sleep(uniform(1, 3))` calls, which in the source
sit inside the `try` block after the successful append, so the `except
Exception` path performs no sleep. -/
def get_song_urls (search : SongInfo → Json) : List SongInfo → List String × Nat
  | [] => ([], 0)
  | song :: rest =>
      match get_song_url song (search song) with
      | .ok (url, _) =>
          let r := get_song_urls search rest
          (url :: r.1, r.2 + 1)
      | .error _ => get_song_urls search rest

/-- Python `int(x)` applied to a JSON value (src/main.py line 66):
numbers pass through, strings are parsed, containers raise. -/
def pyIntOfJson : Json → Option Int
  | .num n => some n
  | .str s => pyIntParseChars s.data
  | _ => none

/-- Embeds the body of the item loop of
`PlaylistDownloader.get_playlist_info` (src/main.py lines 61-68): read
`item["itemV2"]["data"]`, then the name, the first artist's profile
name, and `int(...["totalMilliseconds"])`; `none` models any raised
exception (missing key, bad index, failed `int()`, or a non-string
title/artist rejected by pydantic validation). -/
def extractSongItem (item : Json) : Option SongInfo := do
  let d ← item.getPath [.key "itemV2", .key "data"]
  let nameJ ← d.getKey "name"
  let artistJ ← d.getPath [.key "artists", .key "items", .idx 0, .key "profile", .key "name"]
  let durJ ← d.getPath [.key "trackDuration", .key "totalMilliseconds"]
  let dur ← pyIntOfJson durJ
  match nameJ, artistJ with
  | .str t, .str a => some ⟨t, a, dur⟩
  | _, _ => none

/-- The item loop of `get_playlist_info`: one `SongInfo` per item in
order, aborting the whole call at the first failing item. -/
def extractSongItems : List Json → Option (List SongInfo)
  | [] => some []
  | item :: rest =>
      match extractSongItem item with
      | none => none
      | some song =>
          match extractSongItems rest with
          | none => none
          | some songs => some (song :: songs)

/-- Embeds `PlaylistDownloader.get_playlist_info` (src/main.py lines
46-71) applied to the first page yielded by the upstream provider:
read `page["items"]` and run the item loop. -/
def get_playlist_info (page : Json) : Option (List SongInfo) :=
  match page.getKey "items" with
  | some (.arr items) => extractSongItems items
  | _ => none

/-- Wraps a section list in the nesting that `sectionsSteps` traverses,
mirroring the response shape the source indexes into. -/
def mkData (sections : List Json) : Json :=
  .obj [("contents", .obj [("tabbedSearchResultsRenderer", .obj [("tabs", .arr [
    .obj [("tabRenderer", .obj [("content", .obj [("sectionListRenderer", .obj [
      ("contents", .arr sections)])])])]])])])]

/-- A "card"-style top-result section with the given display title,
video id and duration text, shaped as the paths above expect. -/
def cardSection (cardTitle cardVid cardDur : String) : Json :=
  .obj [("musicCardShelfRenderer", .obj [
    ("title", .obj [("runs", .arr [
      .obj [("text", .str cardTitle),
            ("navigationEndpoint", .obj [("watchEndpoint", .obj [
              ("videoId", .str cardVid)])])]])]),
    ("subtitle", .obj [("runs", .arr [.obj [("text", .str cardDur)]])])])]

/-- A "shelf"-style list section whose first row has the given display
title, video id and duration text, shaped as the paths above expect. -/
def listSection (listTitle listVid listDur : String) : Json :=
  .obj [("musicShelfRenderer", .obj [("contents", .arr [
    .obj [("musicResponsiveListItemRenderer", .obj [
      ("flexColumns", .arr [
        .obj [("musicResponsiveListItemFlexColumnRenderer", .obj [
          ("text", .obj [("runs", .arr [.obj [("text", .str listTitle)]])])])],
        .obj [("musicResponsiveListItemFlexColumnRenderer", .obj [
          ("text", .obj [("runs", .arr [.obj [("text", .str listDur)]])])])]]),
      ("overlay", .obj [("musicItemThumbnailOverlayRenderer", .obj [
        ("content", .obj [("musicPlayButtonRenderer", .obj [
          ("playNavigationEndpoint", .obj [("watchEndpoint", .obj [
            ("videoId", .str listVid)])])])])])])])]])])]

/-- A well-formed two-section search response with a card result and a
first list result. -/
def mkSearchDoc (cardTitle cardVid cardDur listTitle listVid listDur : String) : Json :=
  mkData [cardSection cardTitle cardVid cardDur, listSection listTitle listVid listDur]

/-- A pure disambiguation ("did you mean") section: it carries the
structural marker key and nothing else. -/
def markerSection : Json :=
  .obj [("itemSectionRenderer", .str "did you mean")]

/-- A section carrying both the disambiguation marker key and a full
card result.  Detection in the source is by presence of the marker key
only, so this section is discarded when it is the leading one. -/
def markedCardSection (cardTitle cardVid cardDur : String) : Json :=
  .obj [("itemSectionRenderer", .str "did you mean"),
    ("musicCardShelfRenderer", .obj [
      ("title", .obj [("runs", .arr [
        .obj [("text", .str cardTitle),
              ("navigationEndpoint", .obj [("watchEndpoint", .obj [
                ("videoId", .str cardVid)])])]])]),
      ("subtitle", .obj [("runs", .arr [.obj [("text", .str cardDur)]])])])]

/-- A well-formed playlist item shaped like the one in the repository's
tests (src/tests/test_main.py). -/
def sampleItem : Json :=
  .obj [("itemV2", .obj [("data", .obj [
    ("name", .str "Song 1"),
    ("artists", .obj [("items", .arr [.obj [("profile", .obj [("name", .str "Artist 1")])]])]),
    ("trackDuration", .obj [("totalMilliseconds", .num 180000)])])])]

/-! ### Helper lemmas -/

/-- A valid digit tail of a Python integer literal contains no colon. -/
theorem pyDigitsOkAux_no_colon (prev : Char) (cs : List Char)
    (h : pyDigitsOkAux prev cs = true) : ':' ∉ cs := by
  induction cs generalizing prev with
  | nil => simp
  | cons c cs ih =>
    rw [pyDigitsOkAux] at h
    simp only [Bool.and_eq_true] at h
    intro hmem
    rcases List.mem_cons.mp hmem with hc | hc
    · subst hc
      by_cases hc' : (':' == '_') = true
      · exact absurd hc' (by decide)
      · rw [if_neg hc'] at h
        exact absurd h.1 (by decide)
    · exact ih c h.2 hc

/-- A valid digit part of a Python integer literal contains no colon. -/
theorem pyDigitsOk_no_colon (cs : List Char) (h : pyDigitsOk cs = true) : ':' ∉ cs := by
  cases cs with
  | nil => simp
  | cons c cs =>
    rw [pyDigitsOk] at h
    simp only [Bool.and_eq_true] at h
    intro hmem
    rcases List.mem_cons.mp hmem with hc | hc
    · subst hc; exact absurd h.1 (by decide)
    · exact pyDigitsOkAux_no_colon c cs h.2 hc

/-- An element that fails the predicate survives `dropWhile`. -/
theorem mem_dropWhile_of_not {α : Type} (p : α → Bool) (l : List α) (a : α)
    (ha : a ∈ l) (hp : p a = false) : a ∈ l.dropWhile p := by
  induction l with
  | nil => simp at ha
  | cons b l ih =>
    rw [List.dropWhile]
    rcases List.mem_cons.mp ha with hb | hb
    · subst hb
      rw [hp]
      simp
    · by_cases hpb : p b = true
      · rw [hpb]; exact ih hb
      · rw [Bool.not_eq_true] at hpb
        rw [hpb]
        exact List.mem_cons_of_mem _ hb

/-- A colon survives whitespace stripping. -/
theorem mem_pyStrip (cs : List Char) (h : ':' ∈ cs) : ':' ∈ pyStrip cs := by
  unfold pyStrip
  rw [List.mem_reverse]
  apply mem_dropWhile_of_not _ _ _ _ (by decide)
  rw [List.mem_reverse]
  exact mem_dropWhile_of_not _ _ _ h (by decide)

/-- A string accepted by Python's `int()` contains no colon. -/
theorem pyIntParseChars_no_colon (cs : List Char) (n : Int)
    (h : pyIntParseChars cs = some n) : ':' ∉ cs := by
  intro hmem
  have hs := mem_pyStrip cs hmem
  unfold pyIntParseChars at h
  split at h
  · rename_i rest heq
    rw [heq] at hs
    split at h
    · rename_i hok
      rcases List.mem_cons.mp hs with hc | hc
      · exact absurd hc (by decide)
      · exact pyDigitsOk_no_colon rest hok hc
    · exact Option.noConfusion h
  · rename_i rest heq
    rw [heq] at hs
    split at h
    · rename_i hok
      rcases List.mem_cons.mp hs with hc | hc
      · exact absurd hc (by decide)
      · exact pyDigitsOk_no_colon rest hok hc
    · exact Option.noConfusion h
  · split at h
    · rename_i hok
      exact pyDigitsOk_no_colon _ hok hs
    · exact Option.noConfusion h

/-- `str.split(":")` on a colon-free string returns the whole string. -/
theorem pySplitColon_no_colon (cs : List Char) (h : ':' ∉ cs) : pySplitColon cs = [cs] := by
  induction cs with
  | nil => rfl
  | cons c cs ih =>
    rw [pySplitColon]
    have hc : (c == ':') = false := by
      simp only [List.mem_cons, not_or] at h
      exact beq_eq_false_iff_ne.mpr (fun he => h.1 he.symm)
    rw [hc]
    simp only [Bool.false_eq_true, if_false]
    rw [ih (fun hm => h (List.mem_cons_of_mem _ hm))]

/-- `str.split(":")` peels off the part before the first colon. -/
theorem pySplitColon_append (m s : List Char) (h : ':' ∉ m) :
    pySplitColon (m ++ ':' :: s) = m :: pySplitColon s := by
  induction m with
  | nil => simp [pySplitColon]
  | cons c m ih =>
    rw [List.cons_append, pySplitColon]
    have hc : (c == ':') = false := by
      simp only [List.mem_cons, not_or] at h
      exact beq_eq_false_iff_ne.mpr (fun he => h.1 he.symm)
    rw [hc]
    simp only [Bool.false_eq_true, if_false]
    rw [ih (fun hm => h (List.mem_cons_of_mem _ hm))]

/-- Successful conversion of a two-part duration string. -/
theorem convert_append_ok (m s : List Char) (mi si : Int)
    (hm : pyIntParseChars m = some mi) (hs : pyIntParseChars s = some si) :
    convert_to_milliseconds (String.mk (m ++ ':' :: s)) = Except.ok ((mi * 60 + si) * 1000) := by
  unfold convert_to_milliseconds
  rw [show (String.mk (m ++ ':' :: s)).data = m ++ ':' :: s from rfl]
  rw [pySplitColon_append m s (pyIntParseChars_no_colon m mi hm),
      pySplitColon_no_colon s (pyIntParseChars_no_colon s si hs)]
  show (match pyIntParseChars m, pyIntParseChars s with
        | some mi, some si => Except.ok ((mi * 60 + si) * 1000)
        | _, _ => Except.error FormatErr.valueError) = Except.ok ((mi * 60 + si) * 1000)
  rw [hm, hs]

/-- Failed conversion of a two-part duration string whose components do
not both parse as integers. -/
theorem convert_append_err (m s : List Char)
    (hfail : pyIntParseChars m = none ∨ pyIntParseChars s = none)
    (hm : ':' ∉ m) (hs : ':' ∉ s) :
    convert_to_milliseconds (String.mk (m ++ ':' :: s)) = Except.error FormatErr.valueError := by
  unfold convert_to_milliseconds
  rw [show (String.mk (m ++ ':' :: s)).data = m ++ ':' :: s from rfl]
  rw [pySplitColon_append m s hm, pySplitColon_no_colon s hs]
  show (match pyIntParseChars m, pyIntParseChars s with
        | some mi, some si => Except.ok ((mi * 60 + si) * 1000)
        | _, _ => Except.error FormatErr.valueError) = Except.error FormatErr.valueError
  rcases hfail with hf | hf
  · rw [hf]
  · cases hM : pyIntParseChars m with
    | none => rfl
    | some mi => rw [hf]

/-- The URL list is the in-order `filterMap` of the per-song resolution
results. -/
theorem batchResolver_order_iso (search : SongInfo → Json) (playlist : List SongInfo) :
    (get_song_urls search playlist).1
      = playlist.filterMap (fun song => (get_song_url song (search song)).toOption.map Prod.fst) := by
  induction playlist with
  | nil => rfl
  | cons song rest ih =>
    simp only [Except.toOption] at ih ⊢
    cases hc : get_song_url song (search song) with
    | ok v =>
      obtain ⟨url, t⟩ := v
      simp only [get_song_urls, hc, List.filterMap_cons, Option.map_some']
      rw [ih]
    | error e =>
      simp only [get_song_urls, hc, List.filterMap_cons, Option.map_none']
      exact ih

/-- Every error produced inside the extraction `try` block is either the
context-carrying wrapped error or one of the two unwrapped escapes. -/
theorem selector_error_helper (song : SongInfo) (sections : Json) (e : SongUrlErr)
    (h : selectFromSections song sections = Except.error e) :
    e = SongUrlErr.matchValueError song.title song.artist
      ∨ e = SongUrlErr.formatValueError ∨ e = SongUrlErr.attrValueErr := by
  unfold selectFromSections at h
  repeat' split at h
  all_goals first
    | exact Except.noConfusion h
    | (injection h with h; subst h; simp)

/-- A wrapped match error always carries exactly this song's title and
artist. -/
theorem songUrl_matchErr_context (song : SongInfo) (data : Json) (t a : String)
    (h : get_song_url song data = Except.error (SongUrlErr.matchValueError t a)) :
    t = song.title ∧ a = song.artist := by
  unfold get_song_url at h
  repeat' split at h
  all_goals try (injection h with h; exact SongUrlErr.noConfusion h)
  all_goals rcases selector_error_helper _ _ _ h with hm | hm | hm <;>
    first
      | (injection hm with h1 h2; exact ⟨h1, h2⟩)
      | exact SongUrlErr.noConfusion hm

/-- A successful item loop yields one extracted song per input item, in
order. -/
theorem extractSongItems_some (items : List Json) (l : List SongInfo)
    (h : extractSongItems items = some l) :
    l.length = items.length ∧ items.map extractSongItem = l.map some := by
  induction items generalizing l with
  | nil =>
    rw [extractSongItems] at h
    injection h with h
    subst h
    exact ⟨rfl, rfl⟩
  | cons item rest ih =>
    rw [extractSongItems] at h
    split at h
    · exact Option.noConfusion h
    · rename_i song hsong
      split at h
      · exact Option.noConfusion h
      · rename_i songs hsongs
        injection h with h
        subst h
        obtain ⟨hlen, hmap⟩ := ih songs hsongs
        refine ⟨by simpa using hlen, ?_⟩
        rw [List.map_cons, List.map_cons, hsong, hmap]

/-- One failing item makes the whole item loop fail. -/
theorem extractSongItems_none (items : List Json) (item : Json)
    (hmem : item ∈ items) (hfail : extractSongItem item = none) :
    extractSongItems items = none := by
  induction items with
  | nil => simp at hmem
  | cons a rest ih =>
    rw [extractSongItems]
    rcases List.mem_cons.mp hmem with ha | ha
    · subst ha
      rw [hfail]
    · cases hA : extractSongItem a with
      | none => rfl
      | some song => rw [ih ha]

/-! ### Claim theorems -/

/-- Claim C1: for every target track and every search document from
which both candidates are extracted, the top ("card") candidate is
selected exactly when the absolute delta of its parsed duration against
the target's duration is strictly smaller than the first list
candidate's delta; otherwise — including exact ties — the first list
candidate is selected. -/
theorem matchSelector_selection_rule (song : SongInfo) (ct cv cd lt lv ld : String)
    (tms fms : Int)
    (hcd : convert_to_milliseconds cd = Except.ok tms)
    (hld : convert_to_milliseconds ld = Except.ok fms) :
    get_song_url song (mkSearchDoc ct cv cd lt lv ld)
      = if (tms - song.length).natAbs < (fms - song.length).natAbs
        then Except.ok (watchUrl cv, Json.str ct)
        else Except.ok (watchUrl lv, Json.str lt) := by
  have h : get_song_url song (mkSearchDoc ct cv cd lt lv ld)
      = (match convert_to_milliseconds cd with
         | .error _ => Except.error SongUrlErr.formatValueError
         | .ok tms' =>
            match convert_to_milliseconds ld with
            | .error _ => Except.error SongUrlErr.formatValueError
            | .ok fms' =>
                if (tms' - song.length).natAbs < (fms' - song.length).natAbs then
                  Except.ok (watchUrl cv, Json.str ct)
                else
                  Except.ok (watchUrl lv, Json.str lt)) := rfl
  rw [h, hcd, hld]

/-- Witness for claim C1: a target of 354000 ms with a top candidate at
355000 ms ("5:55") and a list candidate at 367000 ms ("6:07") selects
the top candidate; with equal deltas (61000 ms vs 59000 ms around a
60000 ms target) the list candidate is selected. -/
theorem matchSelector_selection_rule_witness :
    get_song_url ⟨"Bohemian Rhapsody", "Queen", 354000⟩
        (mkSearchDoc "BR" "topid" "5:55" "BRL" "listid" "6:07")
      = Except.ok (watchUrl "topid", Json.str "BR")
    ∧ get_song_url ⟨"Tie", "Band", 60000⟩ (mkSearchDoc "T" "tv" "1:01" "L" "lv" "0:59")
      = Except.ok (watchUrl "lv", Json.str "L") :=
  ⟨(matchSelector_selection_rule ⟨"Bohemian Rhapsody", "Queen", 354000⟩ "BR" "topid" "5:55"
      "BRL" "listid" "6:07" 355000 367000 rfl rfl).trans rfl,
   (matchSelector_selection_rule ⟨"Tie", "Band", 60000⟩ "T" "tv" "1:01" "L" "lv" "0:59"
      61000 59000 rfl rfl).trans rfl⟩

/-- Claim C2: for every input string of the form `M:S` whose components
parse as Python integers, the duration parser returns
`(M * 60 + S) * 1000`; in particular `3:45`, `0:30` and `1:00` map to
225000, 30000 and 60000, and non-numeric input fails with the format
`ValueError`. -/
theorem durationParser_correct :
    (∀ (m s : List Char) (mi si : Int),
        pyIntParseChars m = some mi → pyIntParseChars s = some si →
        convert_to_milliseconds (String.mk (m ++ ':' :: s)) = Except.ok ((mi * 60 + si) * 1000))
    ∧ convert_to_milliseconds "3:45" = Except.ok 225000
    ∧ convert_to_milliseconds "0:30" = Except.ok 30000
    ∧ convert_to_milliseconds "1:00" = Except.ok 60000
    ∧ convert_to_milliseconds "x:yz" = Except.error FormatErr.valueError :=
  ⟨fun m s mi si hm hs => convert_append_ok m s mi si hm hs, rfl, rfl, rfl, rfl⟩

/-- Witness for claim C2: the general clause evaluated at `12:05`. -/
theorem durationParser_correct_witness :
    convert_to_milliseconds (String.mk (['1', '2'] ++ ':' :: ['0', '5']))
      = Except.ok ((12 * 60 + 5) * 1000) :=
  durationParser_correct.1 ['1', '2'] ['0', '5'] 12 5 (by decide) (by decide)

/-- Claim C3: the batch resolver never raises; its output is exactly the
resolved URL of each successfully matched track, in input order (the
in-order `filterMap` of the per-track results), so its length is at most
the input length; in particular, for three tracks where the second one
fails, the output is the URLs of tracks 1 and 3 in that order. -/
theorem batchResolver_isolation_order :
    (∀ (search : SongInfo → Json) (playlist : List SongInfo),
        (get_song_urls search playlist).1
          = playlist.filterMap
              (fun song => (get_song_url song (search song)).toOption.map Prod.fst)
        ∧ (get_song_urls search playlist).1.length ≤ playlist.length)
    ∧ (get_song_urls
        (fun s => if s.title == "t2" then Json.obj []
                  else mkSearchDoc s.title s.title "1:00" "x" "y" "9:59")
        [⟨"t1", "a", 60000⟩, ⟨"t2", "a", 60000⟩, ⟨"t3", "a", 60000⟩]).1
      = [watchUrl "t1", watchUrl "t3"] := by
  refine ⟨fun search playlist => ⟨batchResolver_order_iso search playlist, ?_⟩, rfl⟩
  rw [batchResolver_order_iso search playlist]
  exact List.length_filterMap_le _ _

/-- Claim C4 counterexample: a top candidate whose duration text is the
non-numeric `abc` makes `int()` raise a `ValueError` inside the
extraction block; the `except (KeyError, IndexError)` clause does not
catch it, so it escapes the match selector unwrapped instead of being
converted into the context-carrying match error. -/
theorem formatError_escapes_unwrapped :
    get_song_url ⟨"t", "a", 0⟩ (mkSearchDoc "T" "v" "abc" "L" "w" "1:00")
      = Except.error SongUrlErr.formatValueError :=
  rfl

/-- Claim C4 (amended): a `KeyError`/`IndexError` raised while
extracting candidates inside the `try` block is caught and converted
into a single match error identifying the track; a duration-format
`ValueError` (and an `AttributeError` from a non-string duration value)
escapes the match selector unwrapped. -/
theorem selectorErrors_classified (song : SongInfo) (sections : Json) (e : SongUrlErr)
    (h : selectFromSections song sections = Except.error e) :
    e = SongUrlErr.matchValueError song.title song.artist
      ∨ e = SongUrlErr.formatValueError ∨ e = SongUrlErr.attrValueErr :=
  selector_error_helper song sections e h

/-- Witness for claim C4 (amended): an empty section list, whose failed
card lookup is caught and wrapped with the track's title and artist. -/
theorem selectorErrors_classified_witness :
    SongUrlErr.matchValueError "t" "a" = SongUrlErr.matchValueError "t" "a"
      ∨ SongUrlErr.matchValueError "t" "a" = SongUrlErr.formatValueError
      ∨ SongUrlErr.matchValueError "t" "a" = SongUrlErr.attrValueErr :=
  selectorErrors_classified ⟨"t", "a", 0⟩ (Json.arr []) (SongUrlErr.matchValueError "t" "a") rfl

/-- Claim C5 counterexample: on a document with no `contents` key, the
disambiguation-detection subscripts (outside the `try` block) raise a
bare `KeyError` that escapes without the query context, instead of the
extraction error carrying the target's title and artist that the claim
requires at every step. -/
theorem disambiguationStep_error_uncontextualized :
    get_song_url ⟨"t", "a", 0⟩ (Json.obj []) = Except.error SongUrlErr.keyOrIndexError :=
  rfl

/-- Claim C5 (amended): lookup failures inside the extraction `try`
block are signalled as a match error that always carries exactly the
target's title and artist, but lookup failures in the
disambiguation-detection step escape as a bare `KeyError`/`IndexError`
with no query context. -/
theorem songUrl_error_context (song : SongInfo) (data : Json) :
    (∀ t a, get_song_url song data = Except.error (SongUrlErr.matchValueError t a) →
        t = song.title ∧ a = song.artist)
    ∧ (data.getPath sectionsSteps = none →
        get_song_url song data = Except.error SongUrlErr.keyOrIndexError) :=
  ⟨fun t a h => songUrl_matchErr_context song data t a h,
   fun h => by unfold get_song_url; rw [h]⟩

/-- Witness for claim C5 (amended): a document whose section list holds
one empty section wraps the failure with the track's title and artist;
a document that is an empty list fails the pre-`try` path lookup and
escapes bare. -/
theorem songUrl_error_context_witness :
    ("t" = "t" ∧ "a" = "a")
    ∧ get_song_url ⟨"t", "a", 0⟩ (Json.arr []) = Except.error SongUrlErr.keyOrIndexError :=
  ⟨(songUrl_error_context ⟨"t", "a", 0⟩ (mkData [Json.obj []])).1 "t" "a" rfl,
   (songUrl_error_context ⟨"t", "a", 0⟩ (Json.arr [])).2 rfl⟩

/-- Claim C6 counterexample: a single-track batch whose only attempt
fails performs zero sleeps, not the one sleep per attempt the claim
requires — the `sleep` call sits inside the `try` block after the
successful append, so failed attempts skip it. -/
theorem sleep_skipped_on_failed_attempt :
    (get_song_urls (fun _ => Json.obj []) [⟨"t", "a", 0⟩]).2 = 0
    ∧ ([(⟨"t", "a", 0⟩ : SongInfo)]).length = 1 :=
  ⟨rfl, rfl⟩

/-- Claim C6 (amended): the resolver sleeps exactly once after each
successful attempt (including the last) and not after failed attempts,
so the number of sleeps equals the number of resolved URLs; the random
duration of each sleep is drawn from `uniform(1, 3)` and is abstracted
to the sleep event itself. -/
theorem sleep_follows_each_success (search : SongInfo → Json) (playlist : List SongInfo) :
    (get_song_urls search playlist).2 = (get_song_urls search playlist).1.length := by
  induction playlist with
  | nil => rfl
  | cons song rest ih =>
    cases hc : get_song_url song (search song) with
    | ok v =>
      obtain ⟨url, t⟩ := v
      simp only [get_song_urls, hc, List.length_cons]
      rw [ih]
    | error e =>
      simp only [get_song_urls, hc]
      exact ih

/-- Claim C7 counterexample: the component `-1` parses as a negative
Python integer, and the conversion succeeds with the value -30000
instead of failing with a format error. -/
theorem negative_minutes_accepted :
    convert_to_milliseconds "-1:30" = Except.ok (-30000) :=
  rfl

/-- Claim C7 (amended): the parse fails with the format `ValueError`
exactly when a component does not parse as a Python integer literal;
components that parse as negative integers are accepted and produce the
(possibly negative) value `(M * 60 + S) * 1000`. -/
theorem durationParser_sign_behavior :
    (∀ (m s : List Char),
        (pyIntParseChars m = none ∨ pyIntParseChars s = none) →
        ':' ∉ m → ':' ∉ s →
        convert_to_milliseconds (String.mk (m ++ ':' :: s)) = Except.error FormatErr.valueError)
    ∧ (∀ (m s : List Char) (mi si : Int), mi < 0 →
        pyIntParseChars m = some mi → pyIntParseChars s = some si →
        convert_to_milliseconds (String.mk (m ++ ':' :: s)) = Except.ok ((mi * 60 + si) * 1000)) :=
  ⟨fun m s hfail hm hs => convert_append_err m s hfail hm hs,
   fun m s mi si _ hm hs => convert_append_ok m s mi si hm hs⟩

/-- Witness for claim C7 (amended): `x:30` fails with the format error,
while `-1:30` succeeds with `(-1 * 60 + 30) * 1000`. -/
theorem durationParser_sign_behavior_witness :
    convert_to_milliseconds (String.mk (['x'] ++ ':' :: ['3', '0']))
      = Except.error FormatErr.valueError
    ∧ convert_to_milliseconds (String.mk (['-', '1'] ++ ':' :: ['3', '0']))
      = Except.ok ((-1 * 60 + 30) * 1000) :=
  ⟨durationParser_sign_behavior.1 ['x'] ['3', '0'] (Or.inl (by decide)) (by decide) (by decide),
   durationParser_sign_behavior.2 ['-', '1'] ['3', '0'] (-1) 30 (by decide) (by decide)
     (by decide)⟩

/-- Claim C8 counterexample: the disambiguation skip is one-shot, so for
a document whose residual leading section itself carries the marker key
(next to a full card result), prepending a marker section changes the
result: with the prepended marker the marked card section is used as the
card result, while without it that section is discarded and extraction
fails. -/
theorem disambiguation_skip_one_shot :
    get_song_url ⟨"t", "a", 60000⟩
        (mkData [markerSection, markedCardSection "C" "cv" "1:00", listSection "L" "lv" "9:59"])
      ≠ get_song_url ⟨"t", "a", 60000⟩
        (mkData [markedCardSection "C" "cv" "1:00", listSection "L" "lv" "9:59"]) := by
  have h1 : get_song_url ⟨"t", "a", 60000⟩
      (mkData [markerSection, markedCardSection "C" "cv" "1:00", listSection "L" "lv" "9:59"])
      = Except.ok (watchUrl "cv", Json.str "C") := rfl
  have h2 : get_song_url ⟨"t", "a", 60000⟩
      (mkData [markedCardSection "C" "cv" "1:00", listSection "L" "lv" "9:59"])
      = Except.error (SongUrlErr.matchValueError "t" "a") := rfl
  intro h
  rw [h1, h2] at h
  exact Except.noConfusion h

/-- Claim C8 (amended): detection is by presence of the marker key only,
not by content: for every section `v` carrying the marker key and every
section list whose own leading section does not carry it, extraction and
selection on the document with `v` prepended equals extraction and
selection on the document without it. -/
theorem disambiguation_skip_equivalence (song : SongInfo) (v r0 : Json) (rtail : List Json)
    (hv : v.hasKey "itemSectionRenderer" = true)
    (hr : r0.hasKey "itemSectionRenderer" = false) :
    get_song_url song (mkData (v :: r0 :: rtail)) = get_song_url song (mkData (r0 :: rtail)) := by
  have h1 : get_song_url song (mkData (v :: r0 :: rtail))
      = selectFromSections song
          (.arr (if v.hasKey "itemSectionRenderer" then r0 :: rtail else v :: r0 :: rtail)) := rfl
  have h2 : get_song_url song (mkData (r0 :: rtail))
      = selectFromSections song
          (.arr (if r0.hasKey "itemSectionRenderer" then rtail else r0 :: rtail)) := rfl
  rw [h1, h2, hv, hr]
  simp

/-- Witness for claim C8 (amended): prepending a pure marker section to
a well-formed two-section document leaves the selection unchanged. -/
theorem disambiguation_skip_equivalence_witness :
    get_song_url ⟨"t", "a", 60000⟩
        (mkData (markerSection :: cardSection "C" "cv" "1:00" :: [listSection "L" "lv" "9:59"]))
      = get_song_url ⟨"t", "a", 60000⟩
          (mkData (cardSection "C" "cv" "1:00" :: [listSection "L" "lv" "9:59"])) :=
  disambiguation_skip_equivalence ⟨"t", "a", 60000⟩ markerSection
    (cardSection "C" "cv" "1:00") [listSection "L" "lv" "9:59"] rfl rfl

/-- Claim C9: for every playlist page, the fetch either returns one
extracted track descriptor per item in page order, or fails as a whole
(returning nothing) as soon as any single item is missing an expected
field. -/
theorem playlistFetch_all_or_nothing (items : List Json) :
    (∀ l, get_playlist_info (Json.obj [("items", Json.arr items)]) = some l →
        l.length = items.length ∧ items.map extractSongItem = l.map some)
    ∧ (∀ item, item ∈ items → extractSongItem item = none →
        get_playlist_info (Json.obj [("items", Json.arr items)]) = none) := by
  have hred : get_playlist_info (Json.obj [("items", Json.arr items)])
      = extractSongItems items := rfl
  constructor
  · intro l hl
    exact extractSongItems_some items l (hred.symm.trans hl)
  · intro item hmem hfail
    rw [hred]
    exact extractSongItems_none items item hmem hfail

/-- Witness for claim C9: a one-item page with the well-formed sample
item yields exactly its descriptor, and a one-item page with an empty
item fails as a whole. -/
theorem playlistFetch_all_or_nothing_witness :
    (([(⟨"Song 1", "Artist 1", 180000⟩ : SongInfo)]).length = [sampleItem].length
      ∧ [sampleItem].map extractSongItem
          = [(⟨"Song 1", "Artist 1", 180000⟩ : SongInfo)].map some)
    ∧ get_playlist_info (Json.obj [("items", Json.arr [Json.obj []])]) = none :=
  ⟨(playlistFetch_all_or_nothing [sampleItem]).1 [⟨"Song 1", "Artist 1", 180000⟩] rfl,
   (playlistFetch_all_or_nothing [Json.obj []]).2 (Json.obj []) (List.mem_singleton.mpr rfl) rfl⟩

/-- Claim C10: the per-track handler of the batch loop catches every
error raised while resolving a track — not only the wrapped match error
but also the unwrapped escapes such as a raw duration-format error — so
the failing track is skipped and the batch result is unchanged by its
presence. -/
theorem batchResolver_swallows_all_errors (search : SongInfo → Json)
    (pre post : List SongInfo) (bad : SongInfo) (e : SongUrlErr)
    (h : get_song_url bad (search bad) = Except.error e) :
    get_song_urls search (pre ++ bad :: post) = get_song_urls search (pre ++ post) := by
  induction pre with
  | nil =>
    show get_song_urls search (bad :: post) = get_song_urls search post
    simp only [get_song_urls, h]
  | cons a pre ih =>
    show get_song_urls search (a :: (pre ++ bad :: post))
      = get_song_urls search (a :: (pre ++ post))
    cases hc : get_song_url a (search a) with
    | ok v =>
      obtain ⟨url, t⟩ := v
      simp only [get_song_urls, hc]
      rw [ih]
    | error e2 =>
      simp only [get_song_urls, hc]
      exact ih

/-- Witness for claim C10: a middle track whose duration text `abc`
raises the unwrapped format error is skipped, leaving the batch result
equal to the batch without it. -/
theorem batchResolver_swallows_all_errors_witness :
    get_song_urls
        (fun s => if s.title == "t2" then mkSearchDoc "T" "v" "abc" "L" "w" "1:00"
                  else mkSearchDoc s.title s.title "1:00" "x" "y" "9:59")
        ([⟨"t1", "a", 60000⟩] ++ ⟨"t2", "a", 60000⟩ :: [⟨"t3", "a", 60000⟩])
      = get_song_urls
          (fun s => if s.title == "t2" then mkSearchDoc "T" "v" "abc" "L" "w" "1:00"
                    else mkSearchDoc s.title s.title "1:00" "x" "y" "9:59")
          ([⟨"t1", "a", 60000⟩] ++ [⟨"t3", "a", 60000⟩]) :=
  batchResolver_swallows_all_errors _ [⟨"t1", "a", 60000⟩] [⟨"t3", "a", 60000⟩]
    ⟨"t2", "a", 60000⟩ SongUrlErr.formatValueError rfl

end SpotifyDL
